import Mathlib

/-!
Shallow embedding of the moa_agriplan_system planning backend
(`plans/models.py`, `plans/views.py`, `indicators/models.py`) together
with theorems checking the natural-language specification against it.

Monetary / target quantities are embedded as exact rationals (the source
stores them as 2-decimal fixed-point `Decimal` columns).  Instants are
embedded as (year, month, day, minute) tuples compared lexicographically,
which is the comparison Python `datetime` uses on its components.
-/

/-- Approval pipeline status.  `PlanStatus` and `PerformanceStatus` in
`plans/models.py` are two textually identical enumerations; both are
embedded as this one type. -/
inductive Status where
  | DRAFT
  | SUBMITTED
  | APPROVED
  | VALIDATED
  | FINAL_APPROVED
  | REJECTED
deriving DecidableEq, Repr, BEq

/-- A point in time: calendar year, month, day and minute-of-day.
Python `datetime` values compare lexicographically on their components. -/
structure Instant where
  year : Int
  month : Nat
  day : Nat
  minute : Nat
deriving DecidableEq, Repr, BEq

/-- Strict `<` on instants, lexicographic on (year, month, day, minute). -/
def iLT (a b : Instant) : Bool :=
  if a.year ≠ b.year then decide (a.year < b.year)
  else if a.month ≠ b.month then decide (a.month < b.month)
  else if a.day ≠ b.day then decide (a.day < b.day)
  else decide (a.minute < b.minute)

/-- Non-strict `≤` on instants. -/
def iLE (a b : Instant) : Bool :=
  iLT a b || decide (a = b)

/-- Midnight (00:00) of a given calendar date, as `datetime(year, month, day)`
is built in `plans/models.py`. -/
def mkDate (y : Int) (m d : Nat) : Instant :=
  ⟨y, m, d, 0⟩

/-- Gregorian leap-year rule (divisible by 4, except centuries unless
divisible by 400), as implemented by Python's calendar arithmetic. -/
def isLeapYear (y : Int) : Bool :=
  y % 4 == 0 && (y % 100 != 0 || y % 400 == 0)

/-- Number of days in a month of a given year. -/
def daysInMonth (y : Int) (m : Nat) : Nat :=
  if m = 2 then (if isLeapYear y then 29 else 28)
  else if m = 4 ∨ m = 6 ∨ m = 9 ∨ m = 11 then 30
  else 31

/-- Advance an instant by one calendar day. -/
def addDay (i : Instant) : Instant :=
  if i.day < daysInMonth i.year i.month then
    { i with day := i.day + 1 }
  else if i.month < 12 then
    { i with month := i.month + 1, day := 1 }
  else
    { year := i.year + 1, month := 1, day := 1, minute := i.minute }

/-- Advance an instant by `n` calendar days: `date + timedelta(days=n)`. -/
def addDays (n : Nat) (i : Instant) : Instant :=
  match n with
  | 0 => i
  | n + 1 => addDay (addDays n i)

/-- `SubmissionWindow.WindowType` from `plans/models.py`. -/
inductive WindowKind where
  | BREAKDOWN
  | PERFORMANCE_Q1
  | PERFORMANCE_Q2
  | PERFORMANCE_Q3
  | PERFORMANCE_Q4
deriving DecidableEq, Repr, BEq

/-- A `SubmissionWindow` row: window kind, optional year (empty meaning all
years), an always-open flag, optional start/end instants, an active flag. -/
structure SWindow where
  window_type : WindowKind
  year : Option Int
  always_open : Bool
  start : Option Instant
  stop : Option Instant
  active : Bool
deriving DecidableEq, Repr

/-- The row-resolution step of `_check_submission_window`:
`qs = filter(window_type=wt, active=True)`, then
`qs.filter(year=year).first() or qs.filter(year__isnull=True).first()`.
The list order of `ws` models the database iteration order. -/
def find_active_window (wt : WindowKind) (year : Int) (ws : List SWindow) : Option SWindow :=
  let qs := ws.filter (fun w => w.window_type == wt && w.active)
  ((qs.filter (fun w => w.year == some year)).head?).orElse
    (fun _ => (qs.filter (fun w => w.year == none)).head?)

/-- `_check_submission_window(window_type, date, year)` from
`plans/models.py`: `some true` / `some false` when an applicable override
row decides, `none` (Python `None`) when the caller must fall through to
its built-in default. -/
def check_submission_window (wt : WindowKind) (date : Instant) (year : Int)
    (ws : List SWindow) : Option Bool :=
  match find_active_window wt year ws with
  | some win =>
    if win.always_open then some true
    else
      match win.start, win.stop with
      | some s, some e => some (iLE s date && iLT date e)
      | _, _ => none
  | none => none

/-- `within_annual_breakdown_window(date)` from `plans/models.py`:
consult the override for `(BREAKDOWN, date.year)`; otherwise the default
half-open window June 22 00:00 (inclusive) to June 27 00:00 (exclusive)
of `date`'s calendar year. -/
def within_annual_breakdown_window (date : Instant) (ws : List SWindow) : Bool :=
  match check_submission_window .BREAKDOWN date date.year ws with
  | some b => b
  | none =>
    iLE (mkDate date.year 6 22) date && iLT date (mkDate date.year 6 27)

/-- The breakdown-window oracle generalised over the looked-up year: the
same resolution as `within_annual_breakdown_window` but keying the
`SubmissionWindow` lookup on an explicit `year` argument (the shape
`isOpen(BREAKDOWN, instant, year)` the specification describes).  The
source's `within_annual_breakdown_window` always instantiates `year` with
`date.year`, never with the plan year. -/
def breakdown_window_open_for (date : Instant) (year : Int) (ws : List SWindow) : Bool :=
  match check_submission_window .BREAKDOWN date year ws with
  | some b => b
  | none =>
    iLE (mkDate date.year 6 22) date && iLT date (mkDate date.year 6 27)

/-- The `window_type_map` of `within_quarter_submission_window`. -/
def window_type_of_quarter (q : Nat) : Option WindowKind :=
  match q with
  | 1 => some .PERFORMANCE_Q1
  | 2 => some .PERFORMANCE_Q2
  | 3 => some .PERFORMANCE_Q3
  | 4 => some .PERFORMANCE_Q4
  | _ => none

/-- `within_quarter_submission_window(date, quarter)` from
`plans/models.py`: per-quarter override first; otherwise the default
fiscal-quarter windows (Jul 8–Oct 10, Oct 11–Jan 8, Jan 9–Apr 8,
Apr 9–Jul 7), each end extended by 10 days, evaluated as a closed
interval. -/
def within_quarter_submission_window (date : Instant) (quarter : Nat)
    (ws : List SWindow) : Bool :=
  let ov : Option Bool :=
    match window_type_of_quarter quarter with
    | some wt => check_submission_window wt date date.year ws
    | none => none
  match ov with
  | some b => b
  | none =>
    let fy : Int := if date.month ≥ 7 then date.year else date.year - 1
    let se : Instant × Instant :=
      if quarter = 1 then (mkDate fy 7 8, mkDate fy 10 10)
      else if quarter = 2 then (mkDate fy 10 11, mkDate (fy + 1) 1 8)
      else if quarter = 3 then (mkDate (fy + 1) 1 9, mkDate (fy + 1) 4 8)
      else (mkDate (fy + 1) 4 9, mkDate (fy + 1) 7 7)
    let window_end := addDays 10 se.2
    iLE se.1 date && iLE date window_end

/-- Resolution written from the specification's words (§4.1): "find an
active window row for (kind, year); if none, fall back to an active row
for (kind, year=null)".  Stated with `List.find?` rather than the
source's filter-then-head pipeline; compared against the source in the
claim theorems. -/
def spec_resolve_window (wt : WindowKind) (year : Int) (ws : List SWindow) : Option SWindow :=
  (ws.find? (fun w => w.active && w.window_type == wt && w.year == some year)).orElse
    (fun _ => ws.find? (fun w => w.active && w.window_type == wt && w.year == none))

/-- The breakdown window check written from the specification's words:
if a row is found, `always_open` means open, else if both `start` and
`end` are set the result is `start ≤ instant < end`, else the built-in
default; the default is the half-open interval June 22 00:00 to
June 27 00:00 of the calendar year of the instant. -/
def breakdown_open_spec (date : Instant) (year : Int) (ws : List SWindow) : Bool :=
  let dflt := iLE (mkDate date.year 6 22) date && iLT date (mkDate date.year 6 27)
  match spec_resolve_window .BREAKDOWN year ws with
  | some w =>
    if w.always_open then true
    else
      match w.start, w.stop with
      | some s, some e => iLE s date && iLT date e
      | _, _ => dflt
  | none => dflt

/-- The default performance windows written from the specification's
words (§4.1), with the 10-day grace period already folded into literal
end dates: Q1 = [Jul 8, Oct 10 + 10d = Oct 20], Q2 = [Oct 11, Jan 18],
Q3 = [Jan 9, Apr 18], Q4 = [Apr 9, Jul 17], each a closed interval, with
fiscal start year `t.year` when `t.month ≥ 7` and `t.year − 1`
otherwise. -/
def quarter_window_spec (date : Instant) (quarter : Nat) : Bool :=
  let fy : Int := if date.month ≥ 7 then date.year else date.year - 1
  let se : Instant × Instant :=
    if quarter = 1 then (mkDate fy 7 8, mkDate fy 10 20)
    else if quarter = 2 then (mkDate fy 10 11, mkDate (fy + 1) 1 18)
    else if quarter = 3 then (mkDate (fy + 1) 1 9, mkDate (fy + 1) 4 18)
    else (mkDate (fy + 1) 4 9, mkDate (fy + 1) 7 17)
  iLE se.1 date && iLE date se.2

/-- Whitespace characters stripped by Python `str.strip()`. -/
def isPySpace (c : Char) : Bool :=
  c == ' ' || c == '\t' || c == '\n' || c == '\r'

/-- Python `str.strip()`: drop leading and trailing whitespace. -/
def pyStrip (s : String) : String :=
  ⟨((s.data.dropWhile isPySpace).reverse.dropWhile isPySpace).reverse⟩

/-- Python `str.upper()` on the role strings in play (ASCII). -/
def pyUpper (s : String) : String :=
  ⟨s.data.map Char.toUpper⟩

instance instDecidableEqExcept {ε α : Type} [DecidableEq ε] [DecidableEq α] :
    DecidableEq (Except ε α) := fun x y =>
  match x, y with
  | .error e, .error f =>
    if h : e = f then isTrue (by rw [h]) else isFalse (by simp [h])
  | .ok a, .ok b =>
    if h : a = b then isTrue (by rw [h]) else isFalse (by simp [h])
  | .error _, .ok _ => isFalse (by simp)
  | .ok _, .error _ => isFalse (by simp)

/-- Round a rational to the nearest integer, ties to even — the
`ROUND_HALF_EVEN` default of Python `Decimal.quantize`. -/
def roundHalfEven (x : ℚ) : ℤ :=
  let f : ℤ := ⌊x⌋
  let r : ℚ := x - (f : ℚ)
  if r < 1 / 2 then f
  else if 1 / 2 < r then f + 1
  else if f % 2 = 0 then f else f + 1

/-- `Decimal.quantize(Decimal('0.01'))`: round to 2 decimal places,
ties to even. -/
def quantize2 (x : ℚ) : ℚ :=
  (roundHalfEven (x * 100) : ℚ) / 100

/-- An authenticated principal: numeric id, role string, optional
department and sector ids. -/
structure User where
  id : Nat
  role : String
  department : Option Nat
  sector : Option Nat
deriving DecidableEq, Repr

/-- A `QuarterlyBreakdown` row joined with its `AnnualPlan` (year, target)
and the plan indicator's department/sector ids.  The `sent_to_strategic`
flag is the one the data model of the specification (§3) declares and
`views.py` reads and updates. -/
structure Breakdown where
  id : Nat
  plan_id : Nat
  plan_year : Int
  plan_target : ℚ
  dept_id : Nat
  sector_id : Nat
  q1 : ℚ
  q2 : ℚ
  q3 : ℚ
  q4 : ℚ
  status : Status
  submitted_by : Option Nat
  submitted_at : Option Instant
  reviewed_by : Option Nat
  review_comment : String
  reviewed_at : Option Instant
  validated_by : Option Nat
  validated_at : Option Instant
  final_approved_by : Option Nat
  final_approved_at : Option Instant
  sent_to_strategic : Bool
deriving DecidableEq, Repr

/-- A `QuarterlyPerformance` row joined with its `AnnualPlan`, with the
`variance_description` and `sent_to_strategic` fields the data model of
the specification (§3) declares and `views.py` reads and updates. -/
structure Performance where
  id : Nat
  plan_id : Nat
  plan_year : Int
  dept_id : Nat
  sector_id : Nat
  quarter : Nat
  value : ℚ
  status : Status
  variance_description : String
  submitted_by : Option Nat
  submitted_at : Option Instant
  reviewed_by : Option Nat
  review_comment : String
  reviewed_at : Option Instant
  validated_by : Option Nat
  validated_at : Option Instant
  final_approved_by : Option Nat
  final_approved_at : Option Instant
  sent_to_strategic : Bool
deriving DecidableEq, Repr

/-- `QuarterlyBreakdownViewSet.submit`: role gate, breakdown window gate,
status gate, then the 2-decimal-rounded sum-equals-target invariant; on
success the record becomes SUBMITTED with submitter and timestamp
recorded.  An `error` result models the early `Response(...)` return, on
which the stored record is untouched. -/
def breakdown_submit (u : User) (now : Instant) (ws : List SWindow)
    (b : Breakdown) : Except String Breakdown :=
  if u.role ≠ "LEAD_EXECUTIVE_BODY" then
    .error "Only Lead Executive Body can submit quarterly breakdowns."
  else if ¬ within_annual_breakdown_window now ws then
    .error "Submission window closed (15 days from Jan 1)."
  else if ¬ (b.status = .DRAFT ∨ b.status = .REJECTED) then
    .error "Only draft or rejected breakdowns can be submitted."
  else
    let total := quantize2 (b.q1 + b.q2 + b.q3 + b.q4)
    let target := quantize2 b.plan_target
    if total ≠ target then
      .error "Quarterly totals must equal the annual target before submission."
    else
      .ok { b with status := .SUBMITTED
                 , submitted_by := some u.id
                 , submitted_at := some now }

/-- `QuarterlyBreakdownViewSet.approve`: State Minister moves SUBMITTED to
APPROVED, recording reviewer, timestamp and the (raw) comment. -/
def breakdown_approve (u : User) (now : Instant) (comment : String)
    (b : Breakdown) : Except String Breakdown :=
  if u.role ≠ "STATE_MINISTER" then
    .error "Only State Minister can approve."
  else if b.status ≠ .SUBMITTED then
    .error "Only submitted breakdowns can be approved."
  else
    .ok { b with status := .APPROVED
               , reviewed_by := some u.id
               , reviewed_at := some now
               , review_comment := comment }

/-- `QuarterlyBreakdownViewSet.validate`: Strategic Affairs Staff moves
APPROVED to VALIDATED. -/
def breakdown_validate (u : User) (now : Instant)
    (b : Breakdown) : Except String Breakdown :=
  if u.role ≠ "STRATEGIC_STAFF" then
    .error "Only Strategic Affairs Staff can validate."
  else if b.status ≠ .APPROVED then
    .error "Only approved breakdowns can be validated."
  else
    .ok { b with status := .VALIDATED
               , validated_by := some u.id
               , validated_at := some now }

/-- `QuarterlyBreakdownViewSet.final_approve`: Executive Officer moves
VALIDATED to FINAL_APPROVED. -/
def breakdown_final_approve (u : User) (now : Instant)
    (b : Breakdown) : Except String Breakdown :=
  if u.role ≠ "EXECUTIVE" then
    .error "Only Executive Officer can final approve."
  else if b.status ≠ .VALIDATED then
    .error "Only validated breakdowns can be final approved."
  else
    .ok { b with status := .FINAL_APPROVED
               , final_approved_by := some u.id
               , final_approved_at := some now }

/-- `QuarterlyBreakdownViewSet.reject`: any of the three reviewer roles
moves SUBMITTED/APPROVED/VALIDATED to REJECTED; Strategic Affairs Staff
must supply a non-blank comment; the stripped comment is stored. -/
def breakdown_reject (u : User) (now : Instant) (comment : String)
    (b : Breakdown) : Except String Breakdown :=
  if ¬ (u.role = "STATE_MINISTER" ∨ u.role = "STRATEGIC_STAFF" ∨ u.role = "EXECUTIVE") then
    .error "Only reviewer roles can reject."
  else if u.role = "STRATEGIC_STAFF" ∧ pyStrip comment = "" then
    .error "Rejection note is required for Strategic Affairs Staff."
  else if ¬ (b.status = .SUBMITTED ∨ b.status = .APPROVED ∨ b.status = .VALIDATED) then
    .error "Only submitted or in-approval breakdowns can be rejected."
  else
    .ok { b with status := .REJECTED
               , review_comment := pyStrip comment
               , reviewed_by := some u.id
               , reviewed_at := some now }

/-- The quarterly target picked out of the parent breakdown in
`QuarterlyPerformanceViewSet.submit` (`q_target` stays `None` for a
quarter outside 1..4). -/
def quarter_target (bd : Breakdown) (q : Nat) : Option ℚ :=
  if q = 1 then some bd.q1
  else if q = 2 then some bd.q2
  else if q = 3 then some bd.q3
  else if q = 4 then some bd.q4
  else none

/-- `QuarterlyPerformanceViewSet.submit`: role gate, status gate, quarter
window gate, parent-breakdown-approved gate, then the variance-description
rule when the quarterly target is positive and the achieved percentage
falls outside [84, 110].  `bds` is the breakdown table consulted by
`QuarterlyBreakdown.objects.filter(plan=obj.plan).first()`. -/
def performance_submit (u : User) (now : Instant) (ws : List SWindow)
    (bds : List Breakdown) (variance_desc : String)
    (p : Performance) : Except String Performance :=
  if u.role ≠ "LEAD_EXECUTIVE_BODY" then
    .error "Only Lead Executive Body can submit performance reports."
  else if ¬ (p.status = .DRAFT ∨ p.status = .REJECTED) then
    .error "Only draft or rejected performance can be submitted."
  else if ¬ within_quarter_submission_window now p.quarter ws then
    .error "Submission window closed (10 days after quarter end)."
  else
    let submitted := fun (pr : Performance) =>
      { pr with status := Status.SUBMITTED
              , submitted_by := some u.id
              , submitted_at := some now }
    match (bds.filter (fun b => b.plan_id == p.plan_id)).head? with
    | none =>
      .error "Quarterly performance cannot be submitted until the corresponding quarterly breakdown plan is approved by the State Minister."
    | some bd =>
      if ¬ (bd.status = .APPROVED ∨ bd.status = .VALIDATED ∨ bd.status = .FINAL_APPROVED) then
        .error "Quarterly performance cannot be submitted until the corresponding quarterly breakdown plan is approved by the State Minister."
      else
        match quarter_target bd p.quarter with
        | some t =>
          if 0 < t then
            if p.value / t * 100 < 84 ∨ 110 < p.value / t * 100 then
              if pyStrip variance_desc = "" then
                .error "Variance description is required when quarterly performance is less than 84% or greater than 110% of the target."
              else
                .ok (submitted { p with variance_description := pyStrip variance_desc })
            else
              .ok (submitted p)
          else
            .ok (submitted p)
        | none => .ok (submitted p)

/-- `QuarterlyPerformanceViewSet.approve`. -/
def performance_approve (u : User) (now : Instant) (comment : String)
    (p : Performance) : Except String Performance :=
  if u.role ≠ "STATE_MINISTER" then
    .error "Only State Minister can approve."
  else if p.status ≠ .SUBMITTED then
    .error "Only submitted performance can be approved."
  else
    .ok { p with status := .APPROVED
               , reviewed_by := some u.id
               , reviewed_at := some now
               , review_comment := comment }

/-- `QuarterlyPerformanceViewSet.validate`. -/
def performance_validate (u : User) (now : Instant)
    (p : Performance) : Except String Performance :=
  if u.role ≠ "STRATEGIC_STAFF" then
    .error "Only Strategic Affairs Staff can validate."
  else if p.status ≠ .APPROVED then
    .error "Only approved performance can be validated."
  else
    .ok { p with status := .VALIDATED
               , validated_by := some u.id
               , validated_at := some now }

/-- `QuarterlyPerformanceViewSet.final_approve`. -/
def performance_final_approve (u : User) (now : Instant)
    (p : Performance) : Except String Performance :=
  if u.role ≠ "EXECUTIVE" then
    .error "Only Executive Officer can final approve."
  else if p.status ≠ .VALIDATED then
    .error "Only validated performance can be final approved."
  else
    .ok { p with status := .FINAL_APPROVED
               , final_approved_by := some u.id
               , final_approved_at := some now }

/-- `QuarterlyPerformanceViewSet.reject`. -/
def performance_reject (u : User) (now : Instant) (comment : String)
    (p : Performance) : Except String Performance :=
  if ¬ (u.role = "STATE_MINISTER" ∨ u.role = "STRATEGIC_STAFF" ∨ u.role = "EXECUTIVE") then
    .error "Only reviewer roles can reject."
  else if u.role = "STRATEGIC_STAFF" ∧ pyStrip comment = "" then
    .error "Rejection note is required for Strategic Affairs Staff."
  else if ¬ (p.status = .SUBMITTED ∨ p.status = .APPROVED ∨ p.status = .VALIDATED) then
    .error "Only submitted or in-approval performance can be rejected."
  else
    .ok { p with status := .REJECTED
               , review_comment := pyStrip comment
               , reviewed_by := some u.id
               , reviewed_at := some now }

/-- The explicit `mode` of `submit_to_strategic`: `'plans'`,
`'performances'`, or both together (the source treats an empty/missing
mode as both). -/
inductive Mode where
  | plans
  | performances
  | both
deriving DecidableEq, Repr, BEq

/-- Whether breakdown plans are a selected category of this mode:
`mode in ('', 'both', 'plans')`. -/
def mode_includes_plans : Mode → Bool
  | .plans => true
  | .both => true
  | .performances => false

/-- Whether performances are a selected category of this mode:
`mode in ('', 'both', 'performances')`. -/
def mode_includes_performances : Mode → Bool
  | .performances => true
  | .both => true
  | .plans => false

/-- The whole breakdown and performance tables, as the database state the
batch endpoint reads and writes. -/
structure SysState where
  breakdowns : List Breakdown
  performances : List Performance
deriving DecidableEq, Repr

/-- The State Minister's scope filter of `submit_to_strategic`: restrict
to the user's department if assigned, else to the user's sector if
assigned, else no restriction. -/
def in_scope_breakdown (u : User) (b : Breakdown) : Bool :=
  match u.department with
  | some d => b.dept_id == d
  | none =>
    match u.sector with
    | some s => b.sector_id == s
    | none => true

/-- Scope filter for performance rows, same resolution as for
breakdowns. -/
def in_scope_performance (u : User) (p : Performance) : Bool :=
  match u.department with
  | some d => p.dept_id == d
  | none =>
    match u.sector with
    | some s => p.sector_id == s
    | none => true

/-- The statuses that block the batch hand-off
(`blocking_statuses_plan` / `blocking_statuses_perf`). -/
def blocking_status (s : Status) : Bool :=
  s == .DRAFT || s == .SUBMITTED || s == .REJECTED

/-- The fiscal years touched by the selection: the plan years of the
selected breakdowns (when plans are a selected category) together with
the plan years of the selected performances (when performances are). -/
def years_touched (m : Mode) (bids pids : List Nat) (st : SysState) : List Int :=
  (if mode_includes_plans m then
    (st.breakdowns.filter (fun b => bids.contains b.id)).map (fun b => b.plan_year)
  else [])
  ++ (if mode_includes_performances m then
    (st.performances.filter (fun p => pids.contains p.id)).map (fun p => p.plan_year)
  else [])

/-- Whether year `y` blocks the batch: some record of a selected category
in the reviewer's scope for `y` still has a blocking
(DRAFT/SUBMITTED/REJECTED) status. -/
def blocked_year (u : User) (m : Mode) (st : SysState) (y : Int) : Bool :=
  (mode_includes_plans m &&
    st.breakdowns.any (fun b =>
      in_scope_breakdown u b && b.plan_year == y && blocking_status b.status))
  || (mode_includes_performances m &&
    st.performances.any (fun p =>
      in_scope_performance u p && p.plan_year == y && blocking_status p.status))

/-- The rejection detail of the blocked batch, per mode. -/
def strategic_block_detail (m : Mode) : String :=
  match m with
  | .plans => "Submission blocked: all quarterly breakdown plans for the year must be approved before sending to Strategic Affairs Staff. Please ensure there are no draft/submitted/rejected items."
  | .performances => "Submission blocked: all quarterly performance reports for the year must be approved before sending to Strategic Affairs Staff. Please ensure there are no draft/submitted/rejected items."
  | .both => "Submission blocked: all quarterly breakdown plans and performance reports for the year must be approved before sending to Strategic Affairs Staff. Please ensure there are no draft/submitted/rejected items."

/-- `submit_to_strategic` from `plans/views.py`: State Minister only
(role compared after `.upper()`); every touched year must have no
blocking record of a selected category in scope, else the whole batch is
rejected; on success exactly the selected in-scope APPROVED records of
each selected category get `sent_to_strategic := true`. -/
def submit_to_strategic (u : User) (m : Mode) (bids pids : List Nat)
    (st : SysState) : Except String SysState :=
  if pyUpper u.role ≠ "STATE_MINISTER" then
    .error "Only State Minister can submit to Strategic Affairs Staff."
  else if (years_touched m bids pids st).any (blocked_year u m st) then
    .error (strategic_block_detail m)
  else
    .ok {
      breakdowns :=
        if mode_includes_plans m && !bids.isEmpty then
          st.breakdowns.map (fun b =>
            if in_scope_breakdown u b && bids.contains b.id && b.status == .APPROVED then
              { b with sent_to_strategic := true }
            else b)
        else st.breakdowns
      performances :=
        if mode_includes_performances m && !pids.isEmpty then
          st.performances.map (fun p =>
            if in_scope_performance u p && pids.contains p.id && p.status == .APPROVED then
              { p with sent_to_strategic := true }
            else p)
        else st.performances }

/-- An `AnnualPlan` row attached to an indicator: the plan year and the
fixed-point target. -/
structure PlanRow where
  year : Int
  target : ℚ
deriving DecidableEq, Repr

/-- A `QuarterlyPerformance` row attached to an indicator's plan: year,
quarter, achieved value and approval status. -/
structure PerfRow where
  year : Int
  quarter : Nat
  value : ℚ
  status : Status
deriving DecidableEq, Repr

/-- An `Indicator` with its `is_aggregatable` flag and its joined
`AnnualPlan` and `QuarterlyPerformance` rows. -/
structure Indicator where
  is_aggregatable : Bool
  plans : List PlanRow
  perfs : List PerfRow
deriving DecidableEq, Repr

/-- An `IndicatorGroup` with its directly linked member indicators and
its direct child groups (the group forest of `indicators/models.py`). -/
inductive IndicatorGroup where
  | node (indicators : List Indicator) (children : List IndicatorGroup)
deriving Repr

/-- Sum of the year-`y` plan targets of one indicator
(`AnnualPlan.objects.filter(indicator=..., year=year)` summed). -/
def plan_target_sum (i : Indicator) (y : Int) : ℚ :=
  ((i.plans.filter (fun p => p.year == y)).map (fun p => p.target)).sum

/-- Sum of year-`y` targets over the aggregatable indicators of one
member list: `self.indicators.filter(is_aggregatable=True)` joined with
the year's plans and summed. -/
def direct_target_sum (inds : List Indicator) (y : Int) : ℚ :=
  ((inds.filter (fun i => i.is_aggregatable)).map (fun i => plan_target_sum i y)).sum

/-- Sum of the (year, quarter) performance values of one indicator,
with no filter on status. -/
def perf_value_sum (i : Indicator) (y : Int) (q : Nat) : ℚ :=
  ((i.perfs.filter (fun r => r.year == y && r.quarter == q)).map (fun r => r.value)).sum

/-- Sum of (year, quarter) performance values over the aggregatable
indicators of one member list. -/
def direct_perf_sum (inds : List Indicator) (y : Int) (q : Nat) : ℚ :=
  ((inds.filter (fun i => i.is_aggregatable)).map (fun i => perf_value_sum i y q)).sum

mutual

/-- `IndicatorGroup.get_annual_target_aggregate(year)`: targets of the
directly linked aggregatable indicators' plans for the year, plus the
recursive aggregate of every direct child group. -/
def get_annual_target_aggregate : IndicatorGroup → Int → ℚ
  | .node inds cs, y => direct_target_sum inds y + target_aggregate_children cs y

/-- The `for child_group in self.children.all()` accumulation loop of
`get_annual_target_aggregate`. -/
def target_aggregate_children : List IndicatorGroup → Int → ℚ
  | [], _ => 0
  | c :: cs, y => get_annual_target_aggregate c y + target_aggregate_children cs y

end

mutual

/-- `IndicatorGroup.get_performance_aggregate(year, quarter)`:
performance values of the directly linked aggregatable indicators' plans
for (year, quarter) — with no status filter — plus the recursive
aggregate of every direct child group. -/
def get_performance_aggregate : IndicatorGroup → Int → Nat → ℚ
  | .node inds cs, y, q => direct_perf_sum inds y q + performance_aggregate_children cs y q

/-- The child-group accumulation loop of `get_performance_aggregate`. -/
def performance_aggregate_children : List IndicatorGroup → Int → Nat → ℚ
  | [], _, _ => 0
  | c :: cs, y, q => get_performance_aggregate c y q + performance_aggregate_children cs y q

end

mutual

/-- Every indicator occurrence anywhere in the subtree (the group's own
member list followed by the members of all descendants). -/
def subtree_indicators : IndicatorGroup → List Indicator
  | .node inds cs => inds ++ subtree_indicators_list cs

/-- Subtree indicator occurrences of a list of groups, in order. -/
def subtree_indicators_list : List IndicatorGroup → List Indicator
  | [] => []
  | c :: cs => subtree_indicators c ++ subtree_indicators_list cs

end

mutual

/-- Remove the non-aggregatable indicators from every member list of the
tree, leaving the group structure intact. -/
def prune_non_aggregatable : IndicatorGroup → IndicatorGroup
  | .node inds cs => .node (inds.filter (fun i => i.is_aggregatable)) (prune_list cs)

/-- `prune_non_aggregatable` mapped over a list of groups. -/
def prune_list : List IndicatorGroup → List IndicatorGroup
  | [] => []
  | c :: cs => prune_non_aggregatable c :: prune_list cs

end

/-- Apply a status transformation to every performance row of an
indicator, leaving year, quarter, value and the aggregatable flag
untouched. -/
def Indicator.mapPerfStatus (f : Status → Status) (i : Indicator) : Indicator :=
  { i with perfs := i.perfs.map (fun r => { r with status := f r.status }) }

mutual

/-- Apply a status transformation to every performance row anywhere in
the tree. -/
def map_perf_status (f : Status → Status) : IndicatorGroup → IndicatorGroup
  | .node inds cs => .node (inds.map (Indicator.mapPerfStatus f)) (map_perf_status_list f cs)

/-- `map_perf_status` mapped over a list of groups. -/
def map_perf_status_list (f : Status → Status) : List IndicatorGroup → List IndicatorGroup
  | [] => []
  | c :: cs => map_perf_status f c :: map_perf_status_list f cs

end

/-- A two-level group tree: every direct child is a leaf. -/
def two_level : IndicatorGroup → Bool
  | .node _ cs => cs.all (fun c => match c with | .node _ cs2 => cs2.isEmpty)

/-- The non-review payload of a breakdown: identity, plan reference,
numeric quarters and the strategic hand-off flag. -/
def breakdownCore (b : Breakdown) :=
  (b.id, b.plan_id, b.plan_year, b.plan_target, b.dept_id, b.sector_id,
    b.q1, b.q2, b.q3, b.q4, b.sent_to_strategic)

/-- The submit-stage actor/timestamp pair of a breakdown. -/
def breakdownSubmitStage (b : Breakdown) := (b.submitted_by, b.submitted_at)

/-- The review-stage actor/timestamp pair of a breakdown. -/
def breakdownReviewStage (b : Breakdown) := (b.reviewed_by, b.reviewed_at)

/-- The validation-stage actor/timestamp pair of a breakdown. -/
def breakdownValidateStage (b : Breakdown) := (b.validated_by, b.validated_at)

/-- The final-approval-stage actor/timestamp pair of a breakdown. -/
def breakdownFinalStage (b : Breakdown) := (b.final_approved_by, b.final_approved_at)

/-- The non-review payload of a performance: identity, plan reference,
quarter, value, variance description and the strategic hand-off flag. -/
def performanceCore (p : Performance) :=
  (p.id, p.plan_id, p.plan_year, p.dept_id, p.sector_id, p.quarter,
    p.value, p.variance_description, p.sent_to_strategic)

/-- The submit-stage actor/timestamp pair of a performance. -/
def performanceSubmitStage (p : Performance) := (p.submitted_by, p.submitted_at)

/-- The review-stage actor/timestamp pair of a performance. -/
def performanceReviewStage (p : Performance) := (p.reviewed_by, p.reviewed_at)

/-- The validation-stage actor/timestamp pair of a performance. -/
def performanceValidateStage (p : Performance) := (p.validated_by, p.validated_at)

/-- The final-approval-stage actor/timestamp pair of a performance. -/
def performanceFinalStage (p : Performance) := (p.final_approved_by, p.final_approved_at)

theorem filter_head?_eq_find? {α : Type} (p : α → Bool) (l : List α) :
    (l.filter p).head? = l.find? p := by
  induction l with
  | nil => rfl
  | cons a l ih =>
    by_cases h : p a <;> simp [List.filter_cons, List.find?_cons, h, ih]

theorem find?_congr_fun {α : Type} {p q : α → Bool} (h : ∀ a, p a = q a)
    (l : List α) : l.find? p = l.find? q := by
  induction l with
  | nil => rfl
  | cons a l ih => simp only [List.find?_cons, h a, ih]

theorem find_active_window_eq_spec_resolve (wt : WindowKind) (y : Int)
    (ws : List SWindow) :
    find_active_window wt y ws = spec_resolve_window wt y ws := by
  unfold find_active_window spec_resolve_window
  dsimp only
  rw [List.filter_filter, List.filter_filter, filter_head?_eq_find?,
    filter_head?_eq_find?]
  have h1 : ∀ w : SWindow,
      (w.year == some y && (w.window_type == wt && w.active))
        = (w.active && w.window_type == wt && w.year == some y) := by
    intro w
    cases hy : w.year == some y <;> cases hwt : w.window_type == wt <;>
      cases ha : w.active <;> simp [hy, hwt, ha]
  have h2 : ∀ w : SWindow,
      (w.year == none && (w.window_type == wt && w.active))
        = (w.active && w.window_type == wt && w.year == none) := by
    intro w
    cases hy : w.year == none <;> cases hwt : w.window_type == wt <;>
      cases ha : w.active <;> simp [hy, hwt, ha]
  rw [find?_congr_fun h1]
  exact congrArg _ (funext fun _ => find?_congr_fun h2 ws)

/-- Claim C8: the breakdown window check resolves a year-specific active
row first, falls back to an active year-null row, treats an inactive row
as absent (first conjunct), and — given a row — opens on `always_open`,
else on `start ≤ instant < end` when both bounds are set, else falls
through to the built-in default, the half-open June 22 00:00 to
June 27 00:00 window of the instant's calendar year (second conjunct,
stated as agreement with `breakdown_open_spec`, the resolution written
from the specification's words). -/
theorem claim_C8 :
    (∀ (wt : WindowKind) (date : Instant) (y : Int) (ws : List SWindow)
      (w : SWindow), w.active = false →
        check_submission_window wt date y (w :: ws)
          = check_submission_window wt date y ws)
    ∧ ∀ (date : Instant) (ws : List SWindow),
        within_annual_breakdown_window date ws
          = breakdown_open_spec date date.year ws := by
  constructor
  · intro wt date y ws w hw
    unfold check_submission_window find_active_window
    simp [List.filter_cons, hw]
  · intro date ws
    unfold within_annual_breakdown_window breakdown_open_spec
      check_submission_window
    rw [find_active_window_eq_spec_resolve]
    cases h : spec_resolve_window .BREAKDOWN date.year ws with
    | none => rfl
    | some w =>
      cases hao : w.always_open
      · cases hs : w.start <;> cases he : w.stop <;> simp [hao, hs, he]
      · simp [hao]

/-- Witness for C8 at a concrete input: one inactive always-open override
row for (BREAKDOWN, 2025) is ignored, and on the empty window table the
check agrees with the spec-side resolution and is open on June 23 2025. -/
theorem claim_C8_witness :
    check_submission_window .BREAKDOWN ⟨2025, 6, 23, 0⟩ 2025
        [⟨.BREAKDOWN, some 2025, true, none, none, false⟩]
      = check_submission_window .BREAKDOWN ⟨2025, 6, 23, 0⟩ 2025 []
    ∧ within_annual_breakdown_window ⟨2025, 6, 23, 0⟩ []
      = breakdown_open_spec ⟨2025, 6, 23, 0⟩ 2025 []
    ∧ within_annual_breakdown_window ⟨2025, 6, 23, 0⟩ [] = true :=
  ⟨claim_C8.1 .BREAKDOWN ⟨2025, 6, 23, 0⟩ 2025 []
      ⟨.BREAKDOWN, some 2025, true, none, none, false⟩ rfl,
    claim_C8.2 ⟨2025, 6, 23, 0⟩ [], by decide⟩

theorem addDays10_oct10 (y : Int) :
    addDays 10 (mkDate y 10 10) = mkDate y 10 20 := by
  show addDays 10 ⟨y, 10, 10, 0⟩ = ⟨y, 10, 20, 0⟩
  simp only [addDays, addDay, daysInMonth, mkDate]
  norm_num

theorem addDays10_jan8 (y : Int) :
    addDays 10 (mkDate y 1 8) = mkDate y 1 18 := by
  show addDays 10 ⟨y, 1, 8, 0⟩ = ⟨y, 1, 18, 0⟩
  simp only [addDays, addDay, daysInMonth, mkDate]
  norm_num

theorem addDays10_apr8 (y : Int) :
    addDays 10 (mkDate y 4 8) = mkDate y 4 18 := by
  show addDays 10 ⟨y, 4, 8, 0⟩ = ⟨y, 4, 18, 0⟩
  simp only [addDays, addDay, daysInMonth, mkDate]
  norm_num

theorem addDays10_jul7 (y : Int) :
    addDays 10 (mkDate y 7 7) = mkDate y 7 17 := by
  show addDays 10 ⟨y, 7, 7, 0⟩ = ⟨y, 7, 17, 0⟩
  simp only [addDays, addDay, daysInMonth, mkDate]
  norm_num

/-- Claim C9: with no applicable override row, the performance window
check for quarter `q` agrees with the default fiscal-quarter windows of
the specification — Q1 [Jul 8, Oct 10], Q2 [Oct 11, Jan 8], Q3 [Jan 9,
Apr 8], Q4 [Apr 9, Jul 7] anchored to the fiscal year starting July 1,
each end extended by the 10-day grace period and evaluated as a closed
interval (`quarter_window_spec` writes the extended ends as literal
dates). -/
theorem claim_C9 (date : Instant) (q : Nat) (ws : List SWindow)
    (hq : q = 1 ∨ q = 2 ∨ q = 3 ∨ q = 4)
    (hnone : ∀ wt, window_type_of_quarter q = some wt →
      find_active_window wt date.year ws = none) :
    within_quarter_submission_window date q ws = quarter_window_spec date q := by
  rcases hq with h | h | h | h <;> subst h
  · have hn := hnone .PERFORMANCE_Q1 rfl
    simp only [within_quarter_submission_window, quarter_window_spec,
      window_type_of_quarter, check_submission_window, hn]
    norm_num [addDays10_oct10]
  · have hn := hnone .PERFORMANCE_Q2 rfl
    simp only [within_quarter_submission_window, quarter_window_spec,
      window_type_of_quarter, check_submission_window, hn]
    norm_num [addDays10_jan8]
  · have hn := hnone .PERFORMANCE_Q3 rfl
    simp only [within_quarter_submission_window, quarter_window_spec,
      window_type_of_quarter, check_submission_window, hn]
    norm_num [addDays10_apr8]
  · have hn := hnone .PERFORMANCE_Q4 rfl
    simp only [within_quarter_submission_window, quarter_window_spec,
      window_type_of_quarter, check_submission_window, hn]
    norm_num [addDays10_jul7]

/-- Witness for C9: on the empty override table, October 20 2025 (the
last day of the grace-extended Q1 window) agrees with the spec default
and is open, October 21 2025 is closed. -/
theorem claim_C9_witness :
    within_quarter_submission_window ⟨2025, 10, 20, 0⟩ 1 []
      = quarter_window_spec ⟨2025, 10, 20, 0⟩ 1
    ∧ quarter_window_spec ⟨2025, 10, 20, 0⟩ 1 = true
    ∧ within_quarter_submission_window ⟨2025, 10, 21, 0⟩ 1 [] = false :=
  ⟨claim_C9 ⟨2025, 10, 20, 0⟩ 1 [] (Or.inl rfl)
      (fun wt h => by cases h; rfl),
    by decide, by decide⟩

/-- Claim C1 counterexample: the claim keys the submit-time window check
on (BREAKDOWN, plan year), but `breakdown_submit` consults
`within_annual_breakdown_window`, which keys the override lookup on the
calendar year of the instant.  With one always-open active override row
for (BREAKDOWN, 2025), a DRAFT breakdown of plan year 2030 whose quarters
sum to the target submits successfully on January 1 2025 — an instant at
which the oracle for (BREAKDOWN, 2030) is closed (no row for 2030, no
year-null row, and the June default fails).  So "submit succeeds iff ...
the window is open for (BREAKDOWN, plan year) ..." is false here. -/
theorem claim_C1_counterexample :
    (breakdown_submit
        ⟨1, "LEAD_EXECUTIVE_BODY", some 7, none⟩
        ⟨2025, 1, 1, 0⟩
        [⟨.BREAKDOWN, some 2025, true, none, none, true⟩]
        ⟨10, 5, 2030, 1000, 7, 3, 250, 250, 250, 250, .DRAFT, none, none,
          none, "", none, none, none, none, none, false⟩).isOk = true
    ∧ breakdown_window_open_for ⟨2025, 1, 1, 0⟩ 2030
        [⟨.BREAKDOWN, some 2025, true, none, none, true⟩] = false := by
  constructor
  · have hw : within_annual_breakdown_window ⟨2025, 1, 1, 0⟩
        [⟨.BREAKDOWN, some 2025, true, none, none, true⟩] = true := by decide
    simp only [breakdown_submit, hw]
    norm_num [quantize2, roundHalfEven, Except.isOk, Except.toBool]
  · decide

/-- Claim C1 as amended: breakdown submission succeeds iff the actor's
role is LEAD_EXECUTIVE_BODY, the breakdown window is open at the instant
of the call (the oracle keyed on the instant's calendar year, not the
plan year), the status is DRAFT or REJECTED, and the 2-decimal-rounded
quarter sum equals the 2-decimal-rounded target; on success the record
changes exactly to SUBMITTED with the submitter and timestamp recorded.
A failed check returns an error and the stored record is untouched. -/
theorem claim_C1_amended (u : User) (now : Instant) (ws : List SWindow)
    (b : Breakdown) :
    ((breakdown_submit u now ws b).isOk = true ↔
      (u.role = "LEAD_EXECUTIVE_BODY"
        ∧ within_annual_breakdown_window now ws = true
        ∧ (b.status = .DRAFT ∨ b.status = .REJECTED)
        ∧ quantize2 (b.q1 + b.q2 + b.q3 + b.q4) = quantize2 b.plan_target))
    ∧ ∀ b', breakdown_submit u now ws b = .ok b' →
        b' = { b with status := .SUBMITTED
                    , submitted_by := some u.id
                    , submitted_at := some now } := by
  constructor
  · unfold breakdown_submit
    dsimp only
    split_ifs with h1 h2 h3 h4 <;> simp_all [Except.isOk, Except.toBool]
  · intro b' h
    unfold breakdown_submit at h
    dsimp only at h
    split_ifs at h
    all_goals simp_all

/-- Witness for C1 (amended), at the specification's scenario: target
1000.00 with quarters (250, 250, 250, 250) submits successfully on
June 23 2025 (inside the default window), obtained by applying the
amended claim; quarters (250, 250, 250, 249.99) fail with the
sum-invariant error. -/
theorem claim_C1_witness :
    (breakdown_submit ⟨1, "LEAD_EXECUTIVE_BODY", some 7, none⟩
        ⟨2025, 6, 23, 0⟩ []
        ⟨10, 5, 2025, 1000, 7, 3, 250, 250, 250, 250, .DRAFT, none, none,
          none, "", none, none, none, none, none, false⟩).isOk = true
    ∧ breakdown_submit ⟨1, "LEAD_EXECUTIVE_BODY", some 7, none⟩
        ⟨2025, 6, 23, 0⟩ []
        ⟨10, 5, 2025, 1000, 7, 3, 250, 250, 250, 249.99, .DRAFT, none, none,
          none, "", none, none, none, none, none, false⟩
      = .error "Quarterly totals must equal the annual target before submission." := by
  constructor
  · exact (claim_C1_amended ⟨1, "LEAD_EXECUTIVE_BODY", some 7, none⟩
      ⟨2025, 6, 23, 0⟩ []
      ⟨10, 5, 2025, 1000, 7, 3, 250, 250, 250, 250, .DRAFT, none, none,
        none, "", none, none, none, none, none, false⟩).1.mpr
      ⟨rfl, by decide, Or.inl rfl, by norm_num [quantize2, roundHalfEven]⟩
  · have hw : within_annual_breakdown_window ⟨2025, 6, 23, 0⟩ [] = true := by decide
    simp only [breakdown_submit, hw]
    norm_num [quantize2, roundHalfEven]

/-- Claim C3: performance submission is rejected whenever the parent
breakdown lookup finds no breakdown for the performance's plan, or finds
one whose status is not APPROVED/VALIDATED/FINAL_APPROVED — for every
actor role, window table and instant.  An error result models the early
return, on which the stored record is untouched. -/
theorem claim_C3 (u : User) (now : Instant) (ws : List SWindow)
    (bds : List Breakdown) (vdesc : String) (p : Performance)
    (hgate : (bds.filter (fun b => b.plan_id == p.plan_id)).head? = none
      ∨ ∃ bd, (bds.filter (fun b => b.plan_id == p.plan_id)).head? = some bd
          ∧ ¬ (bd.status = .APPROVED ∨ bd.status = .VALIDATED
                ∨ bd.status = .FINAL_APPROVED)) :
    (performance_submit u now ws bds vdesc p).isOk = false := by
  unfold performance_submit
  rcases hgate with hnone | ⟨bd, hbd, hbs⟩
  · simp only [hnone]
    split_ifs <;> simp [Except.isOk, Except.toBool]
  · simp only [hbd, hbs]
    split_ifs <;> simp_all [Except.isOk, Except.toBool]

/-- Witness for C3: a DRAFT performance for plan 5 in an open Q1 window,
submitted by the creator role while the only breakdown of plan 5 is
still SUBMITTED, is rejected. -/
theorem claim_C3_witness :
    (performance_submit ⟨1, "LEAD_EXECUTIVE_BODY", some 7, none⟩
        ⟨2025, 8, 1, 0⟩ []
        [⟨10, 5, 2025, 1000, 7, 3, 250, 250, 250, 250, .SUBMITTED, none,
          none, none, "", none, none, none, none, none, false⟩]
        "" ⟨20, 5, 2025, 7, 3, 1, 50, .DRAFT, "", none, none, none, "",
          none, none, none, none, none, false⟩).isOk = false :=
  claim_C3 ⟨1, "LEAD_EXECUTIVE_BODY", some 7, none⟩ ⟨2025, 8, 1, 0⟩ []
    [⟨10, 5, 2025, 1000, 7, 3, 250, 250, 250, 250, .SUBMITTED, none,
      none, none, "", none, none, none, none, none, false⟩]
    "" ⟨20, 5, 2025, 7, 3, 1, 50, .DRAFT, "", none, none, none, "",
      none, none, none, none, none, false⟩
    (Or.inr ⟨⟨10, 5, 2025, 1000, 7, 3, 250, 250, 250, 250, .SUBMITTED,
      none, none, none, "", none, none, none, none, none, false⟩,
      rfl, by decide⟩)

/-- Claim C7: for both record types, `reject` succeeds iff the actor is
one of the three reviewer roles, a Strategic-Staff actor supplies a
non-blank comment, and the current status is SUBMITTED, APPROVED or
VALIDATED; a successful reject sets REJECTED; a reject attempted in
DRAFT or FINAL_APPROVED state returns an error, not a silent no-op. -/
theorem claim_C7 (u : User) (now : Instant) (comment : String)
    (b : Breakdown) (p : Performance) :
    ((breakdown_reject u now comment b).isOk = true ↔
      ((u.role = "STATE_MINISTER" ∨ u.role = "STRATEGIC_STAFF" ∨ u.role = "EXECUTIVE")
        ∧ (u.role = "STRATEGIC_STAFF" → pyStrip comment ≠ "")
        ∧ (b.status = .SUBMITTED ∨ b.status = .APPROVED ∨ b.status = .VALIDATED)))
    ∧ (∀ b', breakdown_reject u now comment b = .ok b' → b'.status = .REJECTED)
    ∧ ((b.status = .DRAFT ∨ b.status = .FINAL_APPROVED) →
        (breakdown_reject u now comment b).isOk = false)
    ∧ ((performance_reject u now comment p).isOk = true ↔
      ((u.role = "STATE_MINISTER" ∨ u.role = "STRATEGIC_STAFF" ∨ u.role = "EXECUTIVE")
        ∧ (u.role = "STRATEGIC_STAFF" → pyStrip comment ≠ "")
        ∧ (p.status = .SUBMITTED ∨ p.status = .APPROVED ∨ p.status = .VALIDATED)))
    ∧ (∀ p', performance_reject u now comment p = .ok p' → p'.status = .REJECTED)
    ∧ ((p.status = .DRAFT ∨ p.status = .FINAL_APPROVED) →
        (performance_reject u now comment p).isOk = false) := by
  refine ⟨?_, ?_, ?_, ?_, ?_, ?_⟩
  · unfold breakdown_reject
    split_ifs with h1 h2 h3 <;> simp_all [Except.isOk, Except.toBool]
  · intro b' h
    unfold breakdown_reject at h
    split_ifs at h with h1 h2 h3
    injection h with h4
    rw [← h4]
  · intro hs
    unfold breakdown_reject
    split_ifs with h1 h2 h3
    all_goals simp_all [Except.isOk, Except.toBool]
    all_goals (rcases hs with h | h <;> simp_all)
  · unfold performance_reject
    split_ifs with h1 h2 h3 <;> simp_all [Except.isOk, Except.toBool]
  · intro p' h
    unfold performance_reject at h
    split_ifs at h with h1 h2 h3
    injection h with h4
    rw [← h4]
  · intro hs
    unfold performance_reject
    split_ifs with h1 h2 h3
    all_goals simp_all [Except.isOk, Except.toBool]
    all_goals (rcases hs with h | h <;> simp_all)

/-- Claim C10: every successful reviewer transition on either record
type changes at most the status, the review comment, and the
actor/timestamp pair of its own stage: the numeric payload, the plan
reference, the `sent_to_strategic` flag and the other stages' pairs are
unchanged (for `validate`/`final_approve`, which take no comment, the
review comment is unchanged too). -/
theorem claim_C10 (u : User) (now : Instant) (c : String)
    (b : Breakdown) (p : Performance) :
    (∀ b', breakdown_approve u now c b = .ok b' →
      breakdownCore b' = breakdownCore b
        ∧ breakdownSubmitStage b' = breakdownSubmitStage b
        ∧ breakdownValidateStage b' = breakdownValidateStage b
        ∧ breakdownFinalStage b' = breakdownFinalStage b)
    ∧ (∀ b', breakdown_validate u now b = .ok b' →
      breakdownCore b' = breakdownCore b
        ∧ breakdownSubmitStage b' = breakdownSubmitStage b
        ∧ breakdownReviewStage b' = breakdownReviewStage b
        ∧ b'.review_comment = b.review_comment
        ∧ breakdownFinalStage b' = breakdownFinalStage b)
    ∧ (∀ b', breakdown_final_approve u now b = .ok b' →
      breakdownCore b' = breakdownCore b
        ∧ breakdownSubmitStage b' = breakdownSubmitStage b
        ∧ breakdownReviewStage b' = breakdownReviewStage b
        ∧ b'.review_comment = b.review_comment
        ∧ breakdownValidateStage b' = breakdownValidateStage b)
    ∧ (∀ b', breakdown_reject u now c b = .ok b' →
      breakdownCore b' = breakdownCore b
        ∧ breakdownSubmitStage b' = breakdownSubmitStage b
        ∧ breakdownValidateStage b' = breakdownValidateStage b
        ∧ breakdownFinalStage b' = breakdownFinalStage b)
    ∧ (∀ p', performance_approve u now c p = .ok p' →
      performanceCore p' = performanceCore p
        ∧ performanceSubmitStage p' = performanceSubmitStage p
        ∧ performanceValidateStage p' = performanceValidateStage p
        ∧ performanceFinalStage p' = performanceFinalStage p)
    ∧ (∀ p', performance_validate u now p = .ok p' →
      performanceCore p' = performanceCore p
        ∧ performanceSubmitStage p' = performanceSubmitStage p
        ∧ performanceReviewStage p' = performanceReviewStage p
        ∧ p'.review_comment = p.review_comment
        ∧ performanceFinalStage p' = performanceFinalStage p)
    ∧ (∀ p', performance_final_approve u now p = .ok p' →
      performanceCore p' = performanceCore p
        ∧ performanceSubmitStage p' = performanceSubmitStage p
        ∧ performanceReviewStage p' = performanceReviewStage p
        ∧ p'.review_comment = p.review_comment
        ∧ performanceValidateStage p' = performanceValidateStage p)
    ∧ (∀ p', performance_reject u now c p = .ok p' →
      performanceCore p' = performanceCore p
        ∧ performanceSubmitStage p' = performanceSubmitStage p
        ∧ performanceValidateStage p' = performanceValidateStage p
        ∧ performanceFinalStage p' = performanceFinalStage p) := by
  refine ⟨?_, ?_, ?_, ?_, ?_, ?_, ?_, ?_⟩ <;>
    (intro r h
     first
       | unfold breakdown_approve at h
       | unfold breakdown_validate at h
       | unfold breakdown_final_approve at h
       | unfold breakdown_reject at h
       | unfold performance_approve at h
       | unfold performance_validate at h
       | unfold performance_final_approve at h
       | unfold performance_reject at h) <;>
    (split_ifs at h
     injection h with h4
     rw [← h4]
     simp [breakdownCore, breakdownSubmitStage, breakdownReviewStage,
       breakdownValidateStage, breakdownFinalStage, performanceCore,
       performanceSubmitStage, performanceReviewStage,
       performanceValidateStage, performanceFinalStage])

/-- Witness for C10: a State Minister approval of a concrete SUBMITTED
breakdown leaves the payload, the submit-stage pair and the later-stage
pairs untouched. -/
theorem claim_C10_witness :
    breakdownCore ⟨10, 5, 2025, 1000, 7, 3, 250, 250, 250, 250, .APPROVED,
        some 1, some ⟨2025, 6, 23, 0⟩, some 2, "ok", some ⟨2025, 7, 1, 0⟩,
        none, none, none, none, false⟩
      = breakdownCore ⟨10, 5, 2025, 1000, 7, 3, 250, 250, 250, 250,
        .SUBMITTED, some 1, some ⟨2025, 6, 23, 0⟩, none, "", none, none,
        none, none, none, false⟩
    ∧ breakdownSubmitStage ⟨10, 5, 2025, 1000, 7, 3, 250, 250, 250, 250,
        .APPROVED, some 1, some ⟨2025, 6, 23, 0⟩, some 2, "ok",
        some ⟨2025, 7, 1, 0⟩, none, none, none, none, false⟩
      = breakdownSubmitStage ⟨10, 5, 2025, 1000, 7, 3, 250, 250, 250, 250,
        .SUBMITTED, some 1, some ⟨2025, 6, 23, 0⟩, none, "", none, none,
        none, none, none, false⟩
    ∧ breakdownValidateStage ⟨10, 5, 2025, 1000, 7, 3, 250, 250, 250, 250,
        .APPROVED, some 1, some ⟨2025, 6, 23, 0⟩, some 2, "ok",
        some ⟨2025, 7, 1, 0⟩, none, none, none, none, false⟩
      = breakdownValidateStage ⟨10, 5, 2025, 1000, 7, 3, 250, 250, 250, 250,
        .SUBMITTED, some 1, some ⟨2025, 6, 23, 0⟩, none, "", none, none,
        none, none, none, false⟩
    ∧ breakdownFinalStage ⟨10, 5, 2025, 1000, 7, 3, 250, 250, 250, 250,
        .APPROVED, some 1, some ⟨2025, 6, 23, 0⟩, some 2, "ok",
        some ⟨2025, 7, 1, 0⟩, none, none, none, none, false⟩
      = breakdownFinalStage ⟨10, 5, 2025, 1000, 7, 3, 250, 250, 250, 250,
        .SUBMITTED, some 1, some ⟨2025, 6, 23, 0⟩, none, "", none, none,
        none, none, none, false⟩ :=
  (claim_C10 ⟨2, "STATE_MINISTER", none, some 3⟩ ⟨2025, 7, 1, 0⟩ "ok"
    ⟨10, 5, 2025, 1000, 7, 3, 250, 250, 250, 250, .SUBMITTED, some 1,
      some ⟨2025, 6, 23, 0⟩, none, "", none, none, none, none, none, false⟩
    ⟨20, 5, 2025, 7, 3, 1, 50, .DRAFT, "", none, none, none, "", none,
      none, none, none, none, false⟩).1
    ⟨10, 5, 2025, 1000, 7, 3, 250, 250, 250, 250, .APPROVED, some 1,
      some ⟨2025, 6, 23, 0⟩, some 2, "ok", some ⟨2025, 7, 1, 0⟩, none,
      none, none, none, false⟩ rfl

/-- Witness for C7: Strategic Affairs Staff rejecting a SUBMITTED
breakdown with a non-blank note succeeds, and rejecting a DRAFT
performance is itself rejected. -/
theorem claim_C7_witness :
    (breakdown_reject ⟨3, "STRATEGIC_STAFF", none, none⟩ ⟨2025, 7, 2, 0⟩
        "bad data"
        ⟨10, 5, 2025, 1000, 7, 3, 250, 250, 250, 250, .SUBMITTED, some 1,
          some ⟨2025, 6, 23, 0⟩, none, "", none, none, none, none, none,
          false⟩).isOk = true
    ∧ (performance_reject ⟨3, "STRATEGIC_STAFF", none, none⟩ ⟨2025, 7, 2, 0⟩
        "bad data"
        ⟨20, 5, 2025, 7, 3, 1, 50, .DRAFT, "", none, none, none, "", none,
          none, none, none, none, false⟩).isOk = false :=
  ⟨(claim_C7 ⟨3, "STRATEGIC_STAFF", none, none⟩ ⟨2025, 7, 2, 0⟩ "bad data"
      ⟨10, 5, 2025, 1000, 7, 3, 250, 250, 250, 250, .SUBMITTED, some 1,
        some ⟨2025, 6, 23, 0⟩, none, "", none, none, none, none, none,
        false⟩
      ⟨20, 5, 2025, 7, 3, 1, 50, .DRAFT, "", none, none, none, "", none,
        none, none, none, none, false⟩).1.mpr
      ⟨Or.inr (Or.inl rfl), fun _ => by decide, Or.inl rfl⟩,
    (claim_C7 ⟨3, "STRATEGIC_STAFF", none, none⟩ ⟨2025, 7, 2, 0⟩ "bad data"
      ⟨10, 5, 2025, 1000, 7, 3, 250, 250, 250, 250, .SUBMITTED, some 1,
        some ⟨2025, 6, 23, 0⟩, none, "", none, none, none, none, none,
        false⟩
      ⟨20, 5, 2025, 7, 3, 1, 50, .DRAFT, "", none, none, none, "", none,
        none, none, none, none, false⟩).2.2.2.2.2 (Or.inl rfl)⟩

theorem strategic_mark_breakdowns (u : User) (cond : Bool) (ids : List Nat)
    (l : List Breakdown) :
    (if cond && !ids.isEmpty then
        l.map (fun b =>
          if in_scope_breakdown u b && ids.contains b.id && b.status == .APPROVED then
            { b with sent_to_strategic := true }
          else b)
      else l)
    = l.map (fun b =>
        if cond && ids.contains b.id && in_scope_breakdown u b && b.status == .APPROVED then
          { b with sent_to_strategic := true }
        else b) := by
  cases cond with
  | false => simp
  | true =>
    by_cases he : ids.isEmpty
    · rw [List.isEmpty_iff] at he
      subst he
      simp
    · simp only [he, Bool.not_false, Bool.and_true, if_pos rfl, Bool.true_and]
      refine List.map_congr_left (fun b _ => ?_)
      cases hs : in_scope_breakdown u b <;> cases hc : ids.contains b.id <;>
        cases ha : b.status == .APPROVED <;> simp [hs, hc, ha]

theorem strategic_mark_performances (u : User) (cond : Bool) (ids : List Nat)
    (l : List Performance) :
    (if cond && !ids.isEmpty then
        l.map (fun p =>
          if in_scope_performance u p && ids.contains p.id && p.status == .APPROVED then
            { p with sent_to_strategic := true }
          else p)
      else l)
    = l.map (fun p =>
        if cond && ids.contains p.id && in_scope_performance u p && p.status == .APPROVED then
          { p with sent_to_strategic := true }
        else p) := by
  cases cond with
  | false => simp
  | true =>
    by_cases he : ids.isEmpty
    · rw [List.isEmpty_iff] at he
      subst he
      simp
    · simp only [he, Bool.not_false, Bool.and_true, if_pos rfl, Bool.true_and]
      refine List.map_congr_left (fun p _ => ?_)
      cases hs : in_scope_performance u p <;> cases hc : ids.contains p.id <;>
        cases ha : p.status == .APPROVED <;> simp [hs, hc, ha]

/-- Claim C2: for a State Minister caller, the batch hand-off is
rejected in full — with the mode's blocking detail and no state
change — as soon as any touched year still has an in-scope record of a
selected category in DRAFT/SUBMITTED/REJECTED state; when no touched
year is blocked it succeeds, and the new state flags exactly the
selected in-scope APPROVED records of each selected category (records
already flagged stay flagged; nothing else changes). -/
theorem claim_C2 (u : User) (m : Mode) (bids pids : List Nat)
    (st : SysState) (hrole : pyUpper u.role = "STATE_MINISTER") :
    ((∃ y ∈ years_touched m bids pids st, blocked_year u m st y = true) →
        submit_to_strategic u m bids pids st
          = .error (strategic_block_detail m))
    ∧ ((∀ y ∈ years_touched m bids pids st, blocked_year u m st y = false) →
        submit_to_strategic u m bids pids st = .ok
          { breakdowns := st.breakdowns.map (fun b =>
              if mode_includes_plans m && bids.contains b.id
                  && in_scope_breakdown u b && b.status == .APPROVED then
                { b with sent_to_strategic := true }
              else b)
          , performances := st.performances.map (fun p =>
              if mode_includes_performances m && pids.contains p.id
                  && in_scope_performance u p && p.status == .APPROVED then
                { p with sent_to_strategic := true }
              else p) }) := by
  unfold submit_to_strategic
  rw [if_neg (by simp [hrole])]
  constructor
  · rintro ⟨y, hy, hb⟩
    rw [if_pos (List.any_eq_true.mpr ⟨y, hy, hb⟩)]
  · intro hall
    rw [if_neg (by
      simp only [List.any_eq_true, not_exists]
      intro y
      rw [not_and]
      intro hy
      simp [hall y hy])]
    rw [Except.ok.injEq, SysState.mk.injEq]
    exact ⟨strategic_mark_breakdowns u (mode_includes_plans m) bids st.breakdowns,
      strategic_mark_performances u (mode_includes_performances m) pids st.performances⟩

/-- Witness for C2, at the specification's scenario: mode "plans" with
one referenced APPROVED in-scope breakdown (id 11), while another
in-scope breakdown of the same year is still DRAFT — the whole batch is
rejected with the plans-mode detail.  Without the DRAFT record the batch
succeeds and flags exactly the selected APPROVED record. -/
theorem claim_C2_witness :
    submit_to_strategic ⟨2, "STATE_MINISTER", none, some 3⟩ .plans [11] []
      ⟨[⟨11, 6, 2025, 1000, 7, 3, 250, 250, 250, 250, .APPROVED, some 1,
          some ⟨2025, 6, 23, 0⟩, some 2, "", some ⟨2025, 7, 1, 0⟩, none,
          none, none, none, false⟩,
        ⟨12, 8, 2025, 500, 7, 3, 100, 100, 100, 200, .DRAFT, none, none,
          none, "", none, none, none, none, none, false⟩], []⟩
      = .error (strategic_block_detail .plans)
    ∧ submit_to_strategic ⟨2, "STATE_MINISTER", none, some 3⟩ .plans [11] []
      ⟨[⟨11, 6, 2025, 1000, 7, 3, 250, 250, 250, 250, .APPROVED, some 1,
          some ⟨2025, 6, 23, 0⟩, some 2, "", some ⟨2025, 7, 1, 0⟩, none,
          none, none, none, false⟩], []⟩
      = .ok ⟨[⟨11, 6, 2025, 1000, 7, 3, 250, 250, 250, 250, .APPROVED,
          some 1, some ⟨2025, 6, 23, 0⟩, some 2, "", some ⟨2025, 7, 1, 0⟩,
          none, none, none, none, true⟩], []⟩ := by
  constructor
  · exact (claim_C2 ⟨2, "STATE_MINISTER", none, some 3⟩ .plans [11] []
      ⟨[⟨11, 6, 2025, 1000, 7, 3, 250, 250, 250, 250, .APPROVED, some 1,
          some ⟨2025, 6, 23, 0⟩, some 2, "", some ⟨2025, 7, 1, 0⟩, none,
          none, none, none, false⟩,
        ⟨12, 8, 2025, 500, 7, 3, 100, 100, 100, 200, .DRAFT, none, none,
          none, "", none, none, none, none, none, false⟩], []⟩
      (by decide)).1 ⟨2025, by decide, by decide⟩
  · have h := (claim_C2 ⟨2, "STATE_MINISTER", none, some 3⟩ .plans [11] []
      ⟨[⟨11, 6, 2025, 1000, 7, 3, 250, 250, 250, 250, .APPROVED, some 1,
          some ⟨2025, 6, 23, 0⟩, some 2, "", some ⟨2025, 7, 1, 0⟩, none,
          none, none, none, false⟩], []⟩
      (by decide)).2 (by decide)
    rw [h]
    simp [mode_includes_plans, mode_includes_performances, in_scope_breakdown]
    decide

/-- Claim C6: for a performance submission that passes the role, status,
window and parent-breakdown gates, with `t` the parent's quarter target
for the record's quarter: when `t` is positive and the achieved
percentage `value / t * 100` falls outside [84, 110], submission with a
blank variance description is rejected, and with a non-blank one it
succeeds, persisting the stripped description in the same transition;
when the percentage lies inside [84, 110], or `t` is not positive, the
submission succeeds with no description required. -/
theorem claim_C6 (u : User) (now : Instant) (ws : List SWindow)
    (bds : List Breakdown) (vdesc : String) (p : Performance)
    (bd : Breakdown) (t : ℚ)
    (hrole : u.role = "LEAD_EXECUTIVE_BODY")
    (hstatus : p.status = .DRAFT ∨ p.status = .REJECTED)
    (hwin : within_quarter_submission_window now p.quarter ws = true)
    (hbd : (bds.filter (fun b => b.plan_id == p.plan_id)).head? = some bd)
    (hbs : bd.status = .APPROVED ∨ bd.status = .VALIDATED
      ∨ bd.status = .FINAL_APPROVED)
    (ht : quarter_target bd p.quarter = some t) :
    ((0 < t) → (p.value / t * 100 < 84 ∨ 110 < p.value / t * 100) →
      pyStrip vdesc = "" →
        performance_submit u now ws bds vdesc p
          = .error "Variance description is required when quarterly performance is less than 84% or greater than 110% of the target.")
    ∧ ((0 < t) → (p.value / t * 100 < 84 ∨ 110 < p.value / t * 100) →
      pyStrip vdesc ≠ "" →
        performance_submit u now ws bds vdesc p
          = .ok { p with variance_description := pyStrip vdesc
                       , status := .SUBMITTED
                       , submitted_by := some u.id
                       , submitted_at := some now })
    ∧ ((0 < t) → 84 ≤ p.value / t * 100 → p.value / t * 100 ≤ 110 →
        performance_submit u now ws bds vdesc p
          = .ok { p with status := .SUBMITTED
                       , submitted_by := some u.id
                       , submitted_at := some now })
    ∧ (t ≤ 0 →
        performance_submit u now ws bds vdesc p
          = .ok { p with status := .SUBMITTED
                       , submitted_by := some u.id
                       , submitted_at := some now }) := by
  have key : performance_submit u now ws bds vdesc p =
      (if 0 < t then
        if p.value / t * 100 < 84 ∨ 110 < p.value / t * 100 then
          if pyStrip vdesc = "" then
            .error "Variance description is required when quarterly performance is less than 84% or greater than 110% of the target."
          else
            .ok { p with variance_description := pyStrip vdesc
                       , status := .SUBMITTED
                       , submitted_by := some u.id
                       , submitted_at := some now }
        else
          .ok { p with status := .SUBMITTED
                     , submitted_by := some u.id
                     , submitted_at := some now }
      else
        .ok { p with status := .SUBMITTED
                   , submitted_by := some u.id
                   , submitted_at := some now }) := by
    unfold performance_submit
    rw [if_neg (by simp [hrole]), if_neg (not_not_intro hstatus),
      if_neg (by simp [hwin]), hbd]
    dsimp only
    rw [if_neg (not_not_intro hbs), ht]
  refine ⟨?_, ?_, ?_, ?_⟩
  · intro hpos hout hemp
    rw [key, if_pos hpos, if_pos hout, if_pos hemp]
  · intro hpos hout hne
    rw [key, if_pos hpos, if_pos hout, if_neg hne]
  · intro hpos h84 h110
    rw [key, if_pos hpos,
      if_neg (by rw [not_or, not_lt, not_lt]; exact ⟨h84, h110⟩)]
  · intro hle
    rw [key, if_neg (not_lt.mpr hle)]

/-- Witness for C6, at the specification's scenario: value 50 against a
quarter target of 100 (50%), submitted in an open Q1 window over an
APPROVED parent breakdown: with an empty variance description it is
rejected, with a non-empty one it succeeds and stores the description,
and the percentage is derivable as 50. -/
theorem claim_C6_witness :
    performance_submit ⟨1, "LEAD_EXECUTIVE_BODY", some 7, none⟩
        ⟨2025, 8, 1, 0⟩ []
        [⟨10, 5, 2025, 1000, 7, 3, 100, 300, 300, 300, .APPROVED, some 1,
          some ⟨2025, 6, 23, 0⟩, some 2, "", some ⟨2025, 7, 1, 0⟩, none,
          none, none, none, false⟩]
        "" ⟨20, 5, 2025, 7, 3, 1, 50, .DRAFT, "", none, none, none, "",
          none, none, none, none, none, false⟩
      = .error "Variance description is required when quarterly performance is less than 84% or greater than 110% of the target."
    ∧ performance_submit ⟨1, "LEAD_EXECUTIVE_BODY", some 7, none⟩
        ⟨2025, 8, 1, 0⟩ []
        [⟨10, 5, 2025, 1000, 7, 3, 100, 300, 300, 300, .APPROVED, some 1,
          some ⟨2025, 6, 23, 0⟩, some 2, "", some ⟨2025, 7, 1, 0⟩, none,
          none, none, none, false⟩]
        "drought reduced output"
        ⟨20, 5, 2025, 7, 3, 1, 50, .DRAFT, "", none, none, none, "",
          none, none, none, none, none, false⟩
      = .ok ⟨20, 5, 2025, 7, 3, 1, 50, .SUBMITTED, "drought reduced output",
          some 1, some ⟨2025, 8, 1, 0⟩, none, "", none, none, none, none,
          none, false⟩
    ∧ (50 : ℚ) / 100 * 100 = 50 := by
  refine ⟨?_, ?_, by norm_num⟩
  · exact (claim_C6 ⟨1, "LEAD_EXECUTIVE_BODY", some 7, none⟩
      ⟨2025, 8, 1, 0⟩ []
      [⟨10, 5, 2025, 1000, 7, 3, 100, 300, 300, 300, .APPROVED, some 1,
        some ⟨2025, 6, 23, 0⟩, some 2, "", some ⟨2025, 7, 1, 0⟩, none,
        none, none, none, false⟩]
      "" ⟨20, 5, 2025, 7, 3, 1, 50, .DRAFT, "", none, none, none, "",
        none, none, none, none, none, false⟩
      ⟨10, 5, 2025, 1000, 7, 3, 100, 300, 300, 300, .APPROVED, some 1,
        some ⟨2025, 6, 23, 0⟩, some 2, "", some ⟨2025, 7, 1, 0⟩, none,
        none, none, none, false⟩
      100 rfl (Or.inl rfl) (by decide) rfl (Or.inl rfl) rfl).1
      (by norm_num) (Or.inl (by norm_num)) rfl
  · have h := (claim_C6 ⟨1, "LEAD_EXECUTIVE_BODY", some 7, none⟩
      ⟨2025, 8, 1, 0⟩ []
      [⟨10, 5, 2025, 1000, 7, 3, 100, 300, 300, 300, .APPROVED, some 1,
        some ⟨2025, 6, 23, 0⟩, some 2, "", some ⟨2025, 7, 1, 0⟩, none,
        none, none, none, false⟩]
      "drought reduced output"
      ⟨20, 5, 2025, 7, 3, 1, 50, .DRAFT, "", none, none, none, "",
        none, none, none, none, none, false⟩
      ⟨10, 5, 2025, 1000, 7, 3, 100, 300, 300, 300, .APPROVED, some 1,
        some ⟨2025, 6, 23, 0⟩, some 2, "", some ⟨2025, 7, 1, 0⟩, none,
        none, none, none, false⟩
      100 rfl (Or.inl rfl) (by decide) rfl (Or.inl rfl) rfl).2.1
      (by norm_num) (Or.inl (by norm_num)) (by decide)
    rw [h]
    have hps : pyStrip "drought reduced output" = "drought reduced output" := by
      decide
    rw [hps]

theorem direct_target_sum_append (l1 l2 : List Indicator) (y : Int) :
    direct_target_sum (l1 ++ l2) y
      = direct_target_sum l1 y + direct_target_sum l2 y := by
  simp [direct_target_sum, List.filter_append]

theorem target_aggregate_children_eq (cs : List IndicatorGroup) (y : Int) :
    target_aggregate_children cs y
      = (cs.map (fun c => get_annual_target_aggregate c y)).sum := by
  induction cs with
  | nil => rfl
  | cons c cs ih => simp [target_aggregate_children, ih]

theorem flat_target_children_sum (y : Int) : ∀ (cs : List IndicatorGroup),
    (∀ c ∈ cs, get_annual_target_aggregate c y
      = direct_target_sum (subtree_indicators c) y) →
    (cs.map (fun c => get_annual_target_aggregate c y)).sum
      = direct_target_sum (subtree_indicators_list cs) y := by
  intro cs
  induction cs with
  | nil => intro _; simp [subtree_indicators_list, direct_target_sum]
  | cons c cs ih =>
    intro h
    simp only [List.map_cons, List.sum_cons, subtree_indicators_list,
      direct_target_sum_append]
    rw [h c (by simp), ih (fun d hd => h d (by simp [hd]))]

theorem agg_eq_flat_aux : ∀ (n : Nat) (g : IndicatorGroup) (y : Int),
    sizeOf g ≤ n →
    get_annual_target_aggregate g y
      = direct_target_sum (subtree_indicators g) y := by
  intro n
  induction n with
  | zero =>
    intro g y h
    cases g with
    | node inds cs => exact absurd h (by simp_arith)
  | succ n ih =>
    intro g y h
    cases g with
    | node inds cs =>
      have hc : ∀ c ∈ cs, get_annual_target_aggregate c y
          = direct_target_sum (subtree_indicators c) y := by
        intro c hcm
        apply ih c y
        have h1 := List.sizeOf_lt_of_mem hcm
        have h2 : sizeOf (IndicatorGroup.node inds cs)
            = 1 + sizeOf inds + sizeOf cs := by simp
        omega
      rw [get_annual_target_aggregate, subtree_indicators,
        direct_target_sum_append, target_aggregate_children_eq,
        flat_target_children_sum y cs hc]

theorem get_annual_target_aggregate_eq_flat (g : IndicatorGroup) (y : Int) :
    get_annual_target_aggregate g y
      = direct_target_sum (subtree_indicators g) y :=
  agg_eq_flat_aux (sizeOf g) g y le_rfl

theorem prune_flat_children : ∀ (cs : List IndicatorGroup),
    (∀ c ∈ cs, subtree_indicators (prune_non_aggregatable c)
      = (subtree_indicators c).filter (fun i => i.is_aggregatable)) →
    subtree_indicators_list (prune_list cs)
      = (subtree_indicators_list cs).filter (fun i => i.is_aggregatable) := by
  intro cs
  induction cs with
  | nil => intro _; rfl
  | cons c cs ih =>
    intro h
    simp only [prune_list, subtree_indicators_list, List.filter_append]
    rw [h c (by simp), ih (fun d hd => h d (by simp [hd]))]

theorem prune_flat_aux : ∀ (n : Nat) (g : IndicatorGroup), sizeOf g ≤ n →
    subtree_indicators (prune_non_aggregatable g)
      = (subtree_indicators g).filter (fun i => i.is_aggregatable) := by
  intro n
  induction n with
  | zero =>
    intro g h
    cases g with
    | node inds cs => exact absurd h (by simp_arith)
  | succ n ih =>
    intro g h
    cases g with
    | node inds cs =>
      have hc : ∀ c ∈ cs, subtree_indicators (prune_non_aggregatable c)
          = (subtree_indicators c).filter (fun i => i.is_aggregatable) := by
        intro c hcm
        apply ih c
        have h1 := List.sizeOf_lt_of_mem hcm
        have h2 : sizeOf (IndicatorGroup.node inds cs)
            = 1 + sizeOf inds + sizeOf cs := by simp
        omega
      simp only [prune_non_aggregatable, subtree_indicators,
        List.filter_append, prune_flat_children cs hc]

theorem direct_target_sum_filter (l : List Indicator) (y : Int) :
    direct_target_sum (l.filter (fun i => i.is_aggregatable)) y
      = direct_target_sum l y := by
  simp [direct_target_sum, List.filter_filter]

/-- Claim C4: the annual target aggregate of a group is the sum over its
directly linked aggregatable indicators' plans for the year plus the
same aggregate over each direct child (first conjunct); for a two-level
tree it equals the sum over every aggregatable indicator occurrence
anywhere in the subtree of that indicator's plan target for the year
(second conjunct); it is independent of the children's traversal order
(third conjunct); and indicators with `is_aggregatable = false` never
contribute at any level: removing them everywhere leaves every
aggregate unchanged (fourth conjunct). -/
theorem claim_C4 :
    (∀ (inds : List Indicator) (cs : List IndicatorGroup) (y : Int),
      get_annual_target_aggregate (.node inds cs) y
        = direct_target_sum inds y
          + (cs.map (fun c => get_annual_target_aggregate c y)).sum)
    ∧ (∀ (g : IndicatorGroup) (y : Int), two_level g = true →
      get_annual_target_aggregate g y
        = (((subtree_indicators g).filter (fun i => i.is_aggregatable)).map
            (fun i => plan_target_sum i y)).sum)
    ∧ (∀ (inds : List Indicator) (cs cs2 : List IndicatorGroup) (y : Int),
      cs.Perm cs2 →
        get_annual_target_aggregate (.node inds cs) y
          = get_annual_target_aggregate (.node inds cs2) y)
    ∧ (∀ (g : IndicatorGroup) (y : Int),
      get_annual_target_aggregate (prune_non_aggregatable g) y
        = get_annual_target_aggregate g y) := by
  refine ⟨?_, ?_, ?_, ?_⟩
  · intro inds cs y
    rw [get_annual_target_aggregate, target_aggregate_children_eq]
  · intro g y _
    rw [get_annual_target_aggregate_eq_flat]
    rfl
  · intro inds cs cs2 y h
    rw [get_annual_target_aggregate, get_annual_target_aggregate,
      target_aggregate_children_eq, target_aggregate_children_eq,
      (h.map (fun c => get_annual_target_aggregate c y)).sum_eq]
  · intro g y
    rw [get_annual_target_aggregate_eq_flat, get_annual_target_aggregate_eq_flat,
      prune_flat_aux (sizeOf g) g le_rfl, direct_target_sum_filter]

/-- Witness for C4: a concrete two-level tree — root with one
aggregatable indicator (target 10 in 2025), one child holding an
aggregatable indicator (target 5) and a non-aggregatable one
(target 7) — aggregates to 15 for 2025, equal to the flat sum over
aggregatable subtree indicators, invariant under reversing the children
and under pruning the non-aggregatable indicator. -/
theorem claim_C4_witness :
    get_annual_target_aggregate
        (.node [⟨true, [⟨2025, 10⟩], []⟩]
          [.node [⟨true, [⟨2025, 5⟩], []⟩, ⟨false, [⟨2025, 7⟩], []⟩] []])
        2025
      = (((subtree_indicators
            (.node [⟨true, [⟨2025, 10⟩], []⟩]
              [.node [⟨true, [⟨2025, 5⟩], []⟩, ⟨false, [⟨2025, 7⟩], []⟩] []])).filter
          (fun i => i.is_aggregatable)).map
          (fun i => plan_target_sum i 2025)).sum
    ∧ get_annual_target_aggregate
        (.node [⟨true, [⟨2025, 10⟩], []⟩]
          [.node [⟨true, [⟨2025, 5⟩], []⟩, ⟨false, [⟨2025, 7⟩], []⟩] []])
        2025 = 15
    ∧ get_annual_target_aggregate
        (prune_non_aggregatable
          (.node [⟨true, [⟨2025, 10⟩], []⟩]
            [.node [⟨true, [⟨2025, 5⟩], []⟩, ⟨false, [⟨2025, 7⟩], []⟩] []]))
        2025
      = get_annual_target_aggregate
        (.node [⟨true, [⟨2025, 10⟩], []⟩]
          [.node [⟨true, [⟨2025, 5⟩], []⟩, ⟨false, [⟨2025, 7⟩], []⟩] []])
        2025 := by
  refine ⟨claim_C4.2.1
      (.node [⟨true, [⟨2025, 10⟩], []⟩]
        [.node [⟨true, [⟨2025, 5⟩], []⟩, ⟨false, [⟨2025, 7⟩], []⟩] []])
      2025 rfl, ?_,
    claim_C4.2.2.2
      (.node [⟨true, [⟨2025, 10⟩], []⟩]
        [.node [⟨true, [⟨2025, 5⟩], []⟩, ⟨false, [⟨2025, 7⟩], []⟩] []])
      2025⟩
  simp [get_annual_target_aggregate, target_aggregate_children,
    direct_target_sum, plan_target_sum]
  norm_num

theorem performance_aggregate_children_eq (cs : List IndicatorGroup)
    (y : Int) (q : Nat) :
    performance_aggregate_children cs y q
      = (cs.map (fun c => get_performance_aggregate c y q)).sum := by
  induction cs with
  | nil => rfl
  | cons c cs ih => simp [performance_aggregate_children, ih]

theorem mapPerfStatus_is_aggregatable (f : Status → Status) (i : Indicator) :
    (Indicator.mapPerfStatus f i).is_aggregatable = i.is_aggregatable := rfl

theorem perf_value_sum_mapStatus (f : Status → Status) (i : Indicator)
    (y : Int) (q : Nat) :
    perf_value_sum (Indicator.mapPerfStatus f i) y q = perf_value_sum i y q := by
  unfold perf_value_sum Indicator.mapPerfStatus
  induction i.perfs with
  | nil => rfl
  | cons r rows ih =>
    simp only [List.map_cons, List.filter_cons]
    by_cases h : (r.year == y && r.quarter == q) = true
    · simp only [h]
      simp [ih]
    · simp only [h]
      simp [ih]

theorem direct_perf_sum_mapStatus (f : Status → Status) (l : List Indicator)
    (y : Int) (q : Nat) :
    direct_perf_sum (l.map (Indicator.mapPerfStatus f)) y q
      = direct_perf_sum l y q := by
  induction l with
  | nil => rfl
  | cons i l ih =>
    simp only [List.map_cons]
    unfold direct_perf_sum at ih ⊢
    rw [List.filter_cons, List.filter_cons, mapPerfStatus_is_aggregatable]
    by_cases h : i.is_aggregatable = true
    · simp [h, ih, perf_value_sum_mapStatus]
    · simp [h, ih]

theorem perf_map_children : ∀ (cs : List IndicatorGroup)
    (f : Status → Status) (y : Int) (q : Nat),
    (∀ c ∈ cs, get_performance_aggregate (map_perf_status f c) y q
      = get_performance_aggregate c y q) →
    performance_aggregate_children (map_perf_status_list f cs) y q
      = performance_aggregate_children cs y q := by
  intro cs
  induction cs with
  | nil => intro f y q _; rfl
  | cons c cs ih =>
    intro f y q h
    simp only [map_perf_status_list, performance_aggregate_children]
    rw [h c (by simp), ih f y q (fun d hd => h d (by simp [hd]))]

theorem perf_map_aux : ∀ (n : Nat) (g : IndicatorGroup),
    sizeOf g ≤ n → ∀ (f : Status → Status) (y : Int) (q : Nat),
    get_performance_aggregate (map_perf_status f g) y q
      = get_performance_aggregate g y q := by
  intro n
  induction n with
  | zero =>
    intro g h
    cases g with
    | node inds cs => exact absurd h (by simp_arith)
  | succ n ih =>
    intro g h f y q
    cases g with
    | node inds cs =>
      have hc : ∀ c ∈ cs, get_performance_aggregate (map_perf_status f c) y q
          = get_performance_aggregate c y q := by
        intro c hcm
        apply ih c ?_ f y q
        have h1 := List.sizeOf_lt_of_mem hcm
        have h2 : sizeOf (IndicatorGroup.node inds cs)
            = 1 + sizeOf inds + sizeOf cs := by simp
        omega
      simp only [map_perf_status, get_performance_aggregate]
      rw [direct_perf_sum_mapStatus, perf_map_children cs f y q hc]

/-- Claim C5: the performance aggregate of a group sums, over the
aggregatable indicators of the subtree, every performance row matching
(year, quarter) with no filter on approval status (first conjunct, the
recursion equation over the unfiltered row sums); consequently the
aggregate is invariant under any transformation of the rows' statuses —
DRAFT, SUBMITTED or REJECTED rows contribute exactly like APPROVED,
VALIDATED or FINAL_APPROVED ones (second conjunct). -/
theorem claim_C5 :
    (∀ (inds : List Indicator) (cs : List IndicatorGroup) (y : Int) (q : Nat),
      get_performance_aggregate (.node inds cs) y q
        = direct_perf_sum inds y q
          + (cs.map (fun c => get_performance_aggregate c y q)).sum)
    ∧ (∀ (f : Status → Status) (g : IndicatorGroup) (y : Int) (q : Nat),
      get_performance_aggregate (map_perf_status f g) y q
        = get_performance_aggregate g y q) := by
  constructor
  · intro inds cs y q
    rw [get_performance_aggregate, performance_aggregate_children_eq]
  · intro f g y q
    exact perf_map_aux (sizeOf g) g le_rfl f y q

/-- Witness for C5: a concrete tree holding one DRAFT row of value 5 and
one REJECTED row of value 2 for (2025, Q1) aggregates to 7, unchanged
when every status is replaced by FINAL_APPROVED. -/
theorem claim_C5_witness :
    get_performance_aggregate
        (map_perf_status (fun _ => .FINAL_APPROVED)
          (.node [⟨true, [], [⟨2025, 1, 5, .DRAFT⟩]⟩]
            [.node [⟨true, [], [⟨2025, 1, 2, .REJECTED⟩]⟩] []]))
        2025 1
      = get_performance_aggregate
        (.node [⟨true, [], [⟨2025, 1, 5, .DRAFT⟩]⟩]
          [.node [⟨true, [], [⟨2025, 1, 2, .REJECTED⟩]⟩] []])
        2025 1
    ∧ get_performance_aggregate
        (.node [⟨true, [], [⟨2025, 1, 5, .DRAFT⟩]⟩]
          [.node [⟨true, [], [⟨2025, 1, 2, .REJECTED⟩]⟩] []])
        2025 1 = 7 := by
  refine ⟨claim_C5.2 (fun _ => .FINAL_APPROVED)
    (.node [⟨true, [], [⟨2025, 1, 5, .DRAFT⟩]⟩]
      [.node [⟨true, [], [⟨2025, 1, 2, .REJECTED⟩]⟩] []]) 2025 1, ?_⟩
  simp [get_performance_aggregate, performance_aggregate_children,
    direct_perf_sum, perf_value_sum]
  norm_num
